import Mathlib

/-!
Verification of the Day-1 session-aware invocation layer (src/Day-1/app.py).

The embedding models the module as pure state-passing code over a `World`:
the global `conversation` list, the emitted structured log records, the
trace of message payloads handed to the generation adapter, and a tick
counter indexing the successive wall-clock samples taken by the code
(each occurrence of `datetime.now()` reads `clock` at the current tick and
advances it).  The remote generation call `llm_openai.invoke` is a
parameter `gen : Adapter`; a Python exception raised by it is the
`Except.error` case carrying `str(e)`.  A response whose `usage_metadata`
attribute is absent (`none`) makes the construction of the success record
raise an `AttributeError`, which the surrounding `try` converts into the
error path, exactly as in the source.
-/

namespace Day1

/-- Message roles, mirroring SystemMessage / HumanMessage / AIMessage. -/
inductive Role
| system
| user
| assistant
deriving DecidableEq, Repr

/-- A role-tagged message with textual content. -/
structure Message where
  role : Role
  content : String
deriving DecidableEq, Repr

/-- Constructor mirroring langchain SystemMessage. -/
def SystemMessage (c : String) : Message := ⟨Role.system, c⟩

/-- Constructor mirroring langchain HumanMessage. -/
def HumanMessage (c : String) : Message := ⟨Role.user, c⟩

/-- Constructor mirroring langchain AIMessage. -/
def AIMessage (c : String) : Message := ⟨Role.assistant, c⟩

/-- The token-usage dictionary of a response; `.get` on a missing key
yields `none` (Python `None`). -/
structure Usage where
  input_tokens : Option Int
  output_tokens : Option Int
deriving DecidableEq, Repr

/-- The adapter response: generated text plus an optional usage dictionary.
`usage_metadata = none` models a response object whose `usage_metadata`
attribute is `None`, on which `.get` raises `AttributeError`. -/
structure LLMResponse where
  content : String
  usage_metadata : Option Usage
deriving DecidableEq, Repr

/-- A JSON scalar as appearing in the flat log records built by
`json.dumps`. -/
inductive JsonValue
| str (s : String)
| num (n : Int)
| null
deriving DecidableEq, Repr

/-- A flat key-value log record, in the field order of the source dict. -/
abbrev Record := List (String × JsonValue)

/-- Log severity: `logger.info` versus `logger.error`. -/
inductive Level
| info
| error
deriving DecidableEq, Repr

/-- One emitted log line. -/
structure LogEntry where
  level : Level
  record : Record
deriving DecidableEq, Repr

/-- The observable state threaded through an invocation: the global
`conversation` list, the emitted log, the trace of payloads passed to the
generation adapter, and the index of the next wall-clock sample. -/
structure World where
  conversation : List Message
  log : List LogEntry
  calls : List (List Message)
  tick : Nat
deriving DecidableEq, Repr

/-- The generation capability `llm_openai.invoke`: an ordered message
sequence in, generated text and usage counters out, or a failure carrying
the error description `str(e)`. -/
abbrev Adapter := List Message → Except String LLMResponse

/-- The wall clock: the value of the i-th `datetime.now()` sample. -/
abbrev Clock := Nat → Int

/-- JSON encoding of an optional token count: `None` becomes `null`. -/
def optTok : Option Int → JsonValue
| none => JsonValue.null
| some n => JsonValue.num n

/-- The description of the AttributeError raised when the success record
reads `.get` on an absent `usage_metadata`. -/
def attrErrorMessage : String :=
  "AttributeError: NoneType object has no attribute get"

/-- The initial global conversation: one system message, installed at
process start. -/
def initialConversation : List Message :=
  [SystemMessage "You are a concise, professional, and friendly assistant."]

/-- The world at process start: the system-prompt conversation, no log
lines, no adapter calls, clock at tick 0. -/
def initWorld : World := ⟨initialConversation, [], [], 0⟩

/-- The fixed system message built afresh by the stateless invoker. -/
def statelessSystem : Message :=
  SystemMessage "You are a concise, professional assistant."

/-- Stateful logged invocation, translated from `logged_invoke`:
sample `start_time`; append the user message to the conversation; emit the
start record; call the adapter on the accumulated conversation.  On
success: sample latency, append the assistant message, then build the
success record (one more clock sample for its timestamp, then the
`usage_metadata` reads, which raise if the attribute is absent and divert
to the except block: two further clock samples, an error record, and a
re-raise).  On adapter failure: sample latency and a timestamp, emit the
error record, re-raise the same failure. -/
def logged_invoke (gen : Adapter) (clock : Clock)
    (user_message session_id : String) (w : World) :
    Except String String × World :=
  let start_time := clock w.tick
  let conv1 := w.conversation ++ [HumanMessage user_message]
  let startEntry : LogEntry :=
    ⟨Level.info,
     [("event", JsonValue.str "llm_call_start"),
      ("session_id", JsonValue.str session_id),
      ("timestamp", JsonValue.num start_time),
      ("user_message", JsonValue.str user_message),
      ("model", JsonValue.str "gpt-4.1-nano"),
      ("mode", JsonValue.str "stateful")]⟩
  match gen conv1 with
  | Except.ok response =>
    let latency := clock (w.tick + 1) - start_time
    let conv2 := conv1 ++ [AIMessage response.content]
    match response.usage_metadata with
    | some usage =>
      (Except.ok response.content,
       { conversation := conv2,
         log := w.log ++
           [startEntry,
            ⟨Level.info,
             [("event", JsonValue.str "llm_call_success"),
              ("session_id", JsonValue.str session_id),
              ("timestamp", JsonValue.num (clock (w.tick + 2))),
              ("latency_seconds", JsonValue.num latency),
              ("response", JsonValue.str response.content),
              ("output_tokens", optTok usage.output_tokens),
              ("input_tokens", optTok usage.input_tokens)]⟩],
         calls := w.calls ++ [conv1],
         tick := w.tick + 3 })
    | none =>
      (Except.error attrErrorMessage,
       { conversation := conv2,
         log := w.log ++
           [startEntry,
            ⟨Level.error,
             [("event", JsonValue.str "llm_call_error"),
              ("session_id", JsonValue.str session_id),
              ("timestamp", JsonValue.num (clock (w.tick + 4))),
              ("latency_seconds", JsonValue.num (clock (w.tick + 3) - start_time)),
              ("error", JsonValue.str attrErrorMessage)]⟩],
         calls := w.calls ++ [conv1],
         tick := w.tick + 5 })
  | Except.error e =>
    (Except.error e,
     { conversation := conv1,
       log := w.log ++
         [startEntry,
          ⟨Level.error,
           [("event", JsonValue.str "llm_call_error"),
            ("session_id", JsonValue.str session_id),
            ("timestamp", JsonValue.num (clock (w.tick + 2))),
            ("latency_seconds", JsonValue.num (clock (w.tick + 1) - start_time)),
            ("error", JsonValue.str e)]⟩],
       calls := w.calls ++ [conv1],
       tick := w.tick + 3 })

/-- Stateless invocation, translated from `naive_invoke`: sample
`start_time`; emit the start record; call the adapter on a fresh
two-element sequence (fixed system message, then the user message), never
consulting the conversation; success and failure paths exactly as in
`logged_invoke` except that the conversation is never touched. -/
def naive_invoke (gen : Adapter) (clock : Clock)
    (user_message session_id : String) (w : World) :
    Except String String × World :=
  let start_time := clock w.tick
  let payload := [statelessSystem, HumanMessage user_message]
  let startEntry : LogEntry :=
    ⟨Level.info,
     [("event", JsonValue.str "llm_call_start"),
      ("session_id", JsonValue.str session_id),
      ("timestamp", JsonValue.num start_time),
      ("user_message", JsonValue.str user_message),
      ("model", JsonValue.str "gpt-4.1-nano"),
      ("mode", JsonValue.str "stateless")]⟩
  match gen payload with
  | Except.ok response =>
    let latency := clock (w.tick + 1) - start_time
    match response.usage_metadata with
    | some usage =>
      (Except.ok response.content,
       { conversation := w.conversation,
         log := w.log ++
           [startEntry,
            ⟨Level.info,
             [("event", JsonValue.str "llm_call_success"),
              ("session_id", JsonValue.str session_id),
              ("timestamp", JsonValue.num (clock (w.tick + 2))),
              ("latency_seconds", JsonValue.num latency),
              ("response", JsonValue.str response.content),
              ("output_tokens", optTok usage.output_tokens),
              ("input_tokens", optTok usage.input_tokens)]⟩],
         calls := w.calls ++ [payload],
         tick := w.tick + 3 })
    | none =>
      (Except.error attrErrorMessage,
       { conversation := w.conversation,
         log := w.log ++
           [startEntry,
            ⟨Level.error,
             [("event", JsonValue.str "llm_call_error"),
              ("session_id", JsonValue.str session_id),
              ("timestamp", JsonValue.num (clock (w.tick + 4))),
              ("latency_seconds", JsonValue.num (clock (w.tick + 3) - start_time)),
              ("error", JsonValue.str attrErrorMessage)]⟩],
         calls := w.calls ++ [payload],
         tick := w.tick + 5 })
  | Except.error e =>
    (Except.error e,
     { conversation := w.conversation,
       log := w.log ++
         [startEntry,
          ⟨Level.error,
           [("event", JsonValue.str "llm_call_error"),
            ("session_id", JsonValue.str session_id),
            ("timestamp", JsonValue.num (clock (w.tick + 2))),
            ("latency_seconds", JsonValue.num (clock (w.tick + 1) - start_time)),
            ("error", JsonValue.str e)]⟩],
       calls := w.calls ++ [payload],
       tick := w.tick + 3 })

/-- Run a sequence of stateful calls, collecting each result and threading
the world through, as the demo driver does. -/
def runStateful (gen : Adapter) (clock : Clock)
    (inputs : List (String × String)) (w : World) :
    List (Except String String) × World :=
  match inputs with
  | [] => ([], w)
  | (msg, sid) :: rest =>
    let r := logged_invoke gen clock msg sid w
    let rr := runStateful gen clock rest r.2
    (r.1 :: rr.1, rr.2)

/-- The value of the "event" field of a record, when it is a string. -/
def eventField : Record → Option String
| [] => none
| (k, v) :: rest =>
  if k = "event" then
    match v with
    | JsonValue.str s => some s
    | _ => none
  else eventField rest

/-- The value of the "latency_seconds" field of a record, when numeric. -/
def latencyField : Record → Option Int
| [] => none
| (k, v) :: rest =>
  if k = "latency_seconds" then
    match v with
    | JsonValue.num n => some n
    | _ => none
  else latencyField rest

/-- The value of the "timestamp" field of a record, when numeric. -/
def timestampField : Record → Option Int
| [] => none
| (k, v) :: rest =>
  if k = "timestamp" then
    match v with
    | JsonValue.num n => some n
    | _ => none
  else timestampField rest

/-- Whether a log entry is a call_start event. -/
def isStartEvt (en : LogEntry) : Bool :=
  eventField en.record == some "llm_call_start"

/-- Whether a log entry is a call_success event. -/
def isSuccessEvt (en : LogEntry) : Bool :=
  eventField en.record == some "llm_call_success"

/-- Whether a log entry is a call_error event. -/
def isErrorEvt (en : LogEntry) : Bool :=
  eventField en.record == some "llm_call_error"

/-- The key set of a record. -/
def keys (r : Record) : List String := r.map Prod.fst

/-- A deterministic sample adapter that always succeeds with text "R" and
full token counts. -/
def gen0 : Adapter := fun _ => Except.ok ⟨"R", some ⟨some 12, some 6⟩⟩

/-- A sample adapter that always fails with "rate_limited". -/
def genFail : Adapter := fun _ => Except.error "rate_limited"

/-- A sample adapter that succeeds but returns no usage metadata. -/
def genNoUsage : Adapter := fun _ => Except.ok ⟨"R", none⟩

/-- A concrete monotone clock. -/
def clock0 : Clock := fun i => (i : Int)

/-- Characterization of a fully successful stateful call: the adapter was
applied to the accumulated conversation extended with the new user message,
usage metadata was present, the returned text is the response text, and the
resulting world appended the user and assistant messages, recorded the
payload, and logged start and success. -/
lemma logged_invoke_ok (gen : Adapter) (clock : Clock) (m s t : String)
    (w : World) (h : (logged_invoke gen clock m s w).1 = Except.ok t) :
    ∃ resp usage, gen (w.conversation ++ [HumanMessage m]) = Except.ok resp ∧
      resp.usage_metadata = some usage ∧ t = resp.content ∧
      (logged_invoke gen clock m s w).2.conversation =
        w.conversation ++ [HumanMessage m, AIMessage resp.content] ∧
      (logged_invoke gen clock m s w).2.calls =
        w.calls ++ [w.conversation ++ [HumanMessage m]] := by
  cases hg : gen (w.conversation ++ [HumanMessage m]) with
  | error e => simp [logged_invoke, hg] at h
  | ok resp =>
    cases hu : resp.usage_metadata with
    | none => simp [logged_invoke, hg, hu] at h
    | some usage =>
      refine ⟨resp, usage, rfl, hu, ?_, ?_, ?_⟩ <;>
        simp [logged_invoke, hg, hu] at h ⊢
      exact h.symm

/-- The payload handed to the adapter by a stateful call is always the
incoming conversation extended with the new user message, and it is
recorded as the last element of the call trace. -/
lemma logged_invoke_calls (gen : Adapter) (clock : Clock) (m s : String)
    (w : World) :
    (logged_invoke gen clock m s w).2.calls =
      w.calls ++ [w.conversation ++ [HumanMessage m]] := by
  cases hg : gen (w.conversation ++ [HumanMessage m]) with
  | error e => simp [logged_invoke, hg]
  | ok resp =>
    cases hu : resp.usage_metadata with
    | none => simp [logged_invoke, hg, hu]
    | some usage => simp [logged_invoke, hg, hu]

/-- Claim C1: for all user texts A and B, a successful stateful call with A
(receiving assistant reply RA) followed by a stateful call with B passes to
the generation adapter, on the second call, the payload consisting in order
of the fixed system message, the user message A, the assistant reply RA,
and the user message B; the recorded adapter-call trace after the two calls
is exactly the first payload (system, A) followed by that one. -/
theorem spec_C1 (gen : Adapter) (clock : Clock) (A B sid1 sid2 RA : String)
    (w1 : World)
    (h : logged_invoke gen clock A sid1 initWorld = (Except.ok RA, w1)) :
    (logged_invoke gen clock B sid2 w1).2.calls =
      [[SystemMessage "You are a concise, professional, and friendly assistant.",
        HumanMessage A],
       [SystemMessage "You are a concise, professional, and friendly assistant.",
        HumanMessage A, AIMessage RA, HumanMessage B]] := by
  have h1 : (logged_invoke gen clock A sid1 initWorld).1 = Except.ok RA := by
    rw [h]
  have h2 : (logged_invoke gen clock A sid1 initWorld).2 = w1 := by rw [h]
  obtain ⟨resp, usage, hg, hu, hR, hconv, hcalls⟩ :=
    logged_invoke_ok gen clock A sid1 RA initWorld h1
  rw [h2] at hconv hcalls
  rw [logged_invoke_calls, hconv, hcalls, hR]
  simp [initWorld, initialConversation]

/-- Witness for C1 at the concrete adapter `gen0`, clock `clock0`, texts
"A" and "B". -/
theorem spec_C1_witness :
    logged_invoke gen0 clock0 "A" "s1" initWorld =
      (Except.ok "R", (logged_invoke gen0 clock0 "A" "s1" initWorld).2) ∧
    (logged_invoke gen0 clock0 "B" "s2"
        ((logged_invoke gen0 clock0 "A" "s1" initWorld).2)).2.calls =
      [[SystemMessage "You are a concise, professional, and friendly assistant.",
        HumanMessage "A"],
       [SystemMessage "You are a concise, professional, and friendly assistant.",
        HumanMessage "A", AIMessage "R", HumanMessage "B"]] :=
  ⟨rfl, spec_C1 gen0 clock0 "A" "B" "s1" "s2" "R" _ rfl⟩

/-- The payload handed to the adapter by a stateless call is always the
fresh two-element sequence, whatever the incoming world. -/
lemma naive_invoke_calls (gen : Adapter) (clock : Clock) (m s : String)
    (w : World) :
    (naive_invoke gen clock m s w).2.calls =
      w.calls ++ [[statelessSystem, HumanMessage m]] := by
  cases hg : gen [statelessSystem, HumanMessage m] with
  | error e => simp [naive_invoke, hg]
  | ok resp =>
    cases hu : resp.usage_metadata with
    | none => simp [naive_invoke, hg, hu]
    | some usage => simp [naive_invoke, hg, hu]

/-- Counterexample to C2 as stated: with A = B = "hi", the payload built
for the second stateless call does contain a message whose content is A. -/
theorem spec_C2_counterexample :
    (naive_invoke gen0 clock0 "hi" "s2"
        ((naive_invoke gen0 clock0 "hi" "s1" initWorld).2)).2.calls.getLast? =
      some [statelessSystem, HumanMessage "hi"] ∧
    "hi" ∈ ([statelessSystem, HumanMessage "hi"].map Message.content) := by
  exact ⟨rfl, by decide⟩

/-- Claim C2 (amended): the stateless invoker always hands the adapter
exactly the fresh two-element payload (fixed system message, then the user
message), independently of the incoming world and hence of all prior
calls; consequently, when A differs from B and from the fixed system text,
no message of the payload built for B has content A.  (As frozen, the
claim fails in the degenerate case A = B, and when A equals the fixed
system text.) -/
theorem spec_C2 (gen : Adapter) (clock : Clock) (A B sid : String)
    (w : World) (hAB : A ≠ B)
    (hAs : A ≠ "You are a concise, professional assistant.") :
    (naive_invoke gen clock B sid w).2.calls =
      w.calls ++ [[statelessSystem, HumanMessage B]] ∧
    ∀ m ∈ [statelessSystem, HumanMessage B], m.content ≠ A := by
  refine ⟨naive_invoke_calls gen clock B sid w, ?_⟩
  intro m hm
  rcases hm with _ | ⟨_, hm⟩
  · exact fun hcontra => hAs hcontra.symm
  · rcases hm with _ | ⟨_, hm⟩
    · exact fun hcontra => hAB hcontra.symm
    · cases hm

/-- Witness for C2 (amended) at A = "A", B = "B". -/
theorem spec_C2_witness :
    (naive_invoke gen0 clock0 "B" "s" initWorld).2.calls =
      initWorld.calls ++ [[statelessSystem, HumanMessage "B"]] ∧
    ∀ m ∈ [statelessSystem, HumanMessage "B"], m.content ≠ "A" :=
  spec_C2 gen0 clock0 "A" "B" "s" initWorld (by decide) (by decide)

/-- Conversation growth of one fully successful stateful call: exactly the
user and the assistant message are appended. -/
lemma logged_invoke_ok_len (gen : Adapter) (clock : Clock) (m s t : String)
    (w : World) (h : (logged_invoke gen clock m s w).1 = Except.ok t) :
    (logged_invoke gen clock m s w).2.conversation.length =
      w.conversation.length + 2 := by
  obtain ⟨resp, usage, _, _, _, hconv, _⟩ :=
    logged_invoke_ok gen clock m s t w h
  rw [hconv]
  simp

/-- Conversation length after a run of stateful calls that all succeed,
from an arbitrary starting world. -/
lemma runStateful_len (gen : Adapter) (clock : Clock)
    (inputs : List (String × String)) :
    ∀ w : World,
      (∀ r ∈ (runStateful gen clock inputs w).1, ∃ t, r = Except.ok t) →
      (runStateful gen clock inputs w).2.conversation.length =
        w.conversation.length + 2 * inputs.length := by
  induction inputs with
  | nil => intro w _; simp [runStateful]
  | cons p rest ih =>
    intro w h
    obtain ⟨m, s⟩ := p
    simp only [runStateful] at h ⊢
    obtain ⟨t, ht⟩ := h _ (List.mem_cons_self _ _)
    have hstep := logged_invoke_ok_len gen clock m s t w ht
    have htail := ih (logged_invoke gen clock m s w).2
      (fun r hr => h r (List.mem_cons_of_mem _ hr))
    rw [htail, hstep]
    simp [List.length_cons]
    ring

/-- Claim C3: starting from the initial one-element conversation, after N
successful stateful calls and no failed ones the conversation length is
1 + 2N. -/
theorem spec_C3 (gen : Adapter) (clock : Clock)
    (inputs : List (String × String))
    (h : ∀ r ∈ (runStateful gen clock inputs initWorld).1,
      ∃ t, r = Except.ok t) :
    (runStateful gen clock inputs initWorld).2.conversation.length =
      1 + 2 * inputs.length := by
  have := runStateful_len gen clock inputs initWorld h
  simpa [initWorld, initialConversation] using this

/-- Witness for C3 with two successful calls (N = 2, length 5). -/
theorem spec_C3_witness :
    (runStateful gen0 clock0 [("a", "s"), ("b", "s")] initWorld).2.conversation.length =
      1 + 2 * ([("a", "s"), ("b", "s")] : List (String × String)).length :=
  spec_C3 gen0 clock0 [("a", "s"), ("b", "s")] (by
    intro r hr
    have hres : (runStateful gen0 clock0 [("a", "s"), ("b", "s")] initWorld).1 =
        [Except.ok "R", Except.ok "R"] := rfl
    rw [hres] at hr
    rcases hr with _ | ⟨_, hr⟩
    · exact ⟨"R", rfl⟩
    · rcases hr with _ | ⟨_, hr⟩
      · exact ⟨"R", rfl⟩
      · cases hr)

/-- Claim C4: when the adapter fails during a stateful call, the failure
is propagated unchanged and the conversation has grown by exactly the
dangling user message (length + 1, no assistant message, no rollback). -/
theorem spec_C4 (gen : Adapter) (clock : Clock) (m sid e : String)
    (w : World)
    (h : gen (w.conversation ++ [HumanMessage m]) = Except.error e) :
    (logged_invoke gen clock m sid w).1 = Except.error e ∧
    (logged_invoke gen clock m sid w).2.conversation =
      w.conversation ++ [HumanMessage m] ∧
    (logged_invoke gen clock m sid w).2.conversation.length =
      w.conversation.length + 1 := by
  refine ⟨?_, ?_, ?_⟩ <;> simp [logged_invoke, h]

/-- Witness for C4 with the always-failing adapter. -/
theorem spec_C4_witness :
    (logged_invoke genFail clock0 "hi" "s" initWorld).1 =
      Except.error "rate_limited" ∧
    (logged_invoke genFail clock0 "hi" "s" initWorld).2.conversation =
      initWorld.conversation ++ [HumanMessage "hi"] ∧
    (logged_invoke genFail clock0 "hi" "s" initWorld).2.conversation.length =
      initWorld.conversation.length + 1 :=
  spec_C4 genFail clock0 "hi" "s" "rate_limited" initWorld rfl

/-- The field keys of every emitted call_start record. -/
def startKeys : List String :=
  ["event", "session_id", "timestamp", "user_message", "model", "mode"]

/-- The field keys of every emitted call_success record. -/
def successKeys : List String :=
  ["event", "session_id", "timestamp", "latency_seconds", "response",
   "output_tokens", "input_tokens"]

/-- The field keys of every emitted call_error record. -/
def errorKeys : List String :=
  ["event", "session_id", "timestamp", "latency_seconds", "error"]

/-- Counterexample to C5 as stated: a concrete successful stateless call
emits a call_success record whose key set omits the mode field. -/
theorem spec_C5_counterexample :
    ((naive_invoke gen0 clock0 "hi" "s1" initWorld).2.log.map
        fun en => keys en.record) = [startKeys, successKeys] ∧
    ((naive_invoke gen0 clock0 "hi" "s1" initWorld).2.log.map
        fun en => eventField en.record) =
      [some "llm_call_start", some "llm_call_success"] ∧
    "mode" ∉ successKeys := by
  exact ⟨rfl, rfl, by decide⟩

/-- Claim C5 (amended): every record emitted by either invoker has one of
three fixed key sets, each containing the event kind and the session
identifier; call_start records carry the mode field, but call_success and
call_error records do not (the frozen claim wrongly requires mode on all
three kinds). -/
theorem spec_C5 (gen : Adapter) (clock : Clock) (m sid : String)
    (w : World) :
    (∀ en ∈ (logged_invoke gen clock m sid w).2.log.drop w.log.length,
      keys en.record = startKeys ∨ keys en.record = successKeys ∨
        keys en.record = errorKeys) ∧
    (∀ en ∈ (naive_invoke gen clock m sid w).2.log.drop w.log.length,
      keys en.record = startKeys ∨ keys en.record = successKeys ∨
        keys en.record = errorKeys) ∧
    "mode" ∈ startKeys ∧ "session_id" ∈ startKeys ∧
    "event" ∈ startKeys ∧ "event" ∈ successKeys ∧ "event" ∈ errorKeys ∧
    "session_id" ∈ successKeys ∧ "session_id" ∈ errorKeys ∧
    "mode" ∉ successKeys ∧ "mode" ∉ errorKeys := by
  refine ⟨?_, ?_, by decide, by decide, by decide, by decide, by decide,
    by decide, by decide, by decide, by decide⟩
  · cases hg : gen (w.conversation ++ [HumanMessage m]) with
    | error e =>
      intro en hen
      simp only [logged_invoke, hg, List.drop_left, List.mem_cons,
        List.mem_singleton, List.not_mem_nil, or_false] at hen
      rcases hen with h | h
      · subst h; exact Or.inl rfl
      · subst h; exact Or.inr (Or.inr rfl)
    | ok resp =>
      cases hu : resp.usage_metadata with
      | some usage =>
        intro en hen
        simp only [logged_invoke, hg, hu, List.drop_left, List.mem_cons,
          List.mem_singleton, List.not_mem_nil, or_false] at hen
        rcases hen with h | h
        · subst h; exact Or.inl rfl
        · subst h; exact Or.inr (Or.inl rfl)
      | none =>
        intro en hen
        simp only [logged_invoke, hg, hu, List.drop_left, List.mem_cons,
          List.mem_singleton, List.not_mem_nil, or_false] at hen
        rcases hen with h | h
        · subst h; exact Or.inl rfl
        · subst h; exact Or.inr (Or.inr rfl)
  · cases hg : gen [statelessSystem, HumanMessage m] with
    | error e =>
      intro en hen
      simp only [naive_invoke, hg, List.drop_left, List.mem_cons,
        List.mem_singleton, List.not_mem_nil, or_false] at hen
      rcases hen with h | h
      · subst h; exact Or.inl rfl
      · subst h; exact Or.inr (Or.inr rfl)
    | ok resp =>
      cases hu : resp.usage_metadata with
      | some usage =>
        intro en hen
        simp only [naive_invoke, hg, hu, List.drop_left, List.mem_cons,
          List.mem_singleton, List.not_mem_nil, or_false] at hen
        rcases hen with h | h
        · subst h; exact Or.inl rfl
        · subst h; exact Or.inr (Or.inl rfl)
      | none =>
        intro en hen
        simp only [naive_invoke, hg, hu, List.drop_left, List.mem_cons,
          List.mem_singleton, List.not_mem_nil, or_false] at hen
        rcases hen with h | h
        · subst h; exact Or.inl rfl
        · subst h; exact Or.inr (Or.inr rfl)

/-- Witness for C5 (amended): the start record of a concrete stateful call
is among the three admissible shapes. -/
theorem spec_C5_witness :
    keys (LogEntry.record
      ⟨Level.info,
       [("event", JsonValue.str "llm_call_start"),
        ("session_id", JsonValue.str "s"),
        ("timestamp", JsonValue.num 0),
        ("user_message", JsonValue.str "hi"),
        ("model", JsonValue.str "gpt-4.1-nano"),
        ("mode", JsonValue.str "stateful")]⟩) = startKeys ∨
    keys (LogEntry.record
      ⟨Level.info,
       [("event", JsonValue.str "llm_call_start"),
        ("session_id", JsonValue.str "s"),
        ("timestamp", JsonValue.num 0),
        ("user_message", JsonValue.str "hi"),
        ("model", JsonValue.str "gpt-4.1-nano"),
        ("mode", JsonValue.str "stateful")]⟩) = successKeys ∨
    keys (LogEntry.record
      ⟨Level.info,
       [("event", JsonValue.str "llm_call_start"),
        ("session_id", JsonValue.str "s"),
        ("timestamp", JsonValue.num 0),
        ("user_message", JsonValue.str "hi"),
        ("model", JsonValue.str "gpt-4.1-nano"),
        ("mode", JsonValue.str "stateful")]⟩) = errorKeys :=
  (spec_C5 gen0 clock0 "hi" "s" initWorld).1 _ (by decide)

/-- Claim C6: when the adapter fails, each invoker logs exactly one
call_start and one call_error event (the latter at error severity,
carrying the computed latency and the error description), logs no
call_success event, places the call_error record in the log it returns
together with the propagated failure (log-then-propagate ordering), and
propagates the very same failure with no fallback response. -/
theorem spec_C6 (gen : Adapter) (clock : Clock) (m sid e : String)
    (w : World)
    (hS : gen (w.conversation ++ [HumanMessage m]) = Except.error e)
    (hN : gen [statelessSystem, HumanMessage m] = Except.error e) :
    (logged_invoke gen clock m sid w).1 = Except.error e ∧
    ((logged_invoke gen clock m sid w).2.log.drop w.log.length).countP
      isStartEvt = 1 ∧
    ((logged_invoke gen clock m sid w).2.log.drop w.log.length).countP
      isErrorEvt = 1 ∧
    ((logged_invoke gen clock m sid w).2.log.drop w.log.length).countP
      isSuccessEvt = 0 ∧
    ((logged_invoke gen clock m sid w).2.log.drop w.log.length).getLast? =
      some ⟨Level.error,
        [("event", JsonValue.str "llm_call_error"),
         ("session_id", JsonValue.str sid),
         ("timestamp", JsonValue.num (clock (w.tick + 2))),
         ("latency_seconds",
          JsonValue.num (clock (w.tick + 1) - clock w.tick)),
         ("error", JsonValue.str e)]⟩ ∧
    (naive_invoke gen clock m sid w).1 = Except.error e ∧
    ((naive_invoke gen clock m sid w).2.log.drop w.log.length).countP
      isStartEvt = 1 ∧
    ((naive_invoke gen clock m sid w).2.log.drop w.log.length).countP
      isErrorEvt = 1 ∧
    ((naive_invoke gen clock m sid w).2.log.drop w.log.length).countP
      isSuccessEvt = 0 ∧
    ((naive_invoke gen clock m sid w).2.log.drop w.log.length).getLast? =
      some ⟨Level.error,
        [("event", JsonValue.str "llm_call_error"),
         ("session_id", JsonValue.str sid),
         ("timestamp", JsonValue.num (clock (w.tick + 2))),
         ("latency_seconds",
          JsonValue.num (clock (w.tick + 1) - clock w.tick)),
         ("error", JsonValue.str e)]⟩ := by
  refine ⟨?_, ?_, ?_, ?_, ?_, ?_, ?_, ?_, ?_, ?_⟩ <;>
    simp only [logged_invoke, naive_invoke, hS, hN, List.drop_left] <;>
    rfl

/-- Witness for C6 with the always-failing adapter. -/
theorem spec_C6_witness :
    (logged_invoke genFail clock0 "hi" "s" initWorld).1 =
      Except.error "rate_limited" ∧
    ((logged_invoke genFail clock0 "hi" "s" initWorld).2.log.drop
      initWorld.log.length).countP isErrorEvt = 1 :=
  ⟨(spec_C6 genFail clock0 "hi" "s" "rate_limited" initWorld rfl rfl).1,
   (spec_C6 genFail clock0 "hi" "s" "rate_limited" initWorld rfl rfl).2.2.1⟩

/-- Claim C7: a stateless call, whatever its outcome, leaves the
conversation exactly as it was (same list, hence same length and
contents); and whenever it returns text, that text is exactly the content
of the adapter response. -/
theorem spec_C7 (gen : Adapter) (clock : Clock) (m sid : String)
    (w : World) :
    (naive_invoke gen clock m sid w).2.conversation = w.conversation ∧
    ∀ t, (naive_invoke gen clock m sid w).1 = Except.ok t →
      ∃ resp, gen [statelessSystem, HumanMessage m] = Except.ok resp ∧
        t = resp.content := by
  constructor
  · cases hg : gen [statelessSystem, HumanMessage m] with
    | error e => simp [naive_invoke, hg]
    | ok resp =>
      cases hu : resp.usage_metadata with
      | none => simp [naive_invoke, hg, hu]
      | some usage => simp [naive_invoke, hg, hu]
  · intro t ht
    cases hg : gen [statelessSystem, HumanMessage m] with
    | error e => simp [naive_invoke, hg] at ht
    | ok resp =>
      cases hu : resp.usage_metadata with
      | none => simp [naive_invoke, hg, hu] at ht
      | some usage =>
        simp only [naive_invoke, hg, hu] at ht
        exact ⟨resp, rfl, (Except.ok.inj ht).symm⟩

/-- Witness for C7 at the concrete always-succeeding adapter. -/
theorem spec_C7_witness :
    (naive_invoke gen0 clock0 "hi" "s" initWorld).2.conversation =
      initWorld.conversation ∧
    (∃ resp, gen0 [statelessSystem, HumanMessage "hi"] = Except.ok resp ∧
      "R" = resp.content) :=
  ⟨(spec_C7 gen0 clock0 "hi" "s" initWorld).1,
   (spec_C7 gen0 clock0 "hi" "s" initWorld).2 "R" rfl⟩

/-- A stateless call never touches the conversation. -/
lemma naive_invoke_conv (gen : Adapter) (clock : Clock) (m s : String)
    (w : World) :
    (naive_invoke gen clock m s w).2.conversation = w.conversation := by
  cases hg : gen [statelessSystem, HumanMessage m] with
  | error e => simp [naive_invoke, hg]
  | ok resp =>
    cases hu : resp.usage_metadata with
    | none => simp [naive_invoke, hg, hu]
    | some usage => simp [naive_invoke, hg, hu]

/-- A stateful call only ever appends to the conversation. -/
lemma logged_invoke_conv_append (gen : Adapter) (clock : Clock)
    (m s : String) (w : World) :
    ∃ t, (logged_invoke gen clock m s w).2.conversation =
      w.conversation ++ t := by
  cases hg : gen (w.conversation ++ [HumanMessage m]) with
  | error e => exact ⟨[HumanMessage m], by simp [logged_invoke, hg]⟩
  | ok resp =>
    cases hu : resp.usage_metadata with
    | none =>
      exact ⟨[HumanMessage m, AIMessage resp.content],
        by simp [logged_invoke, hg, hu]⟩
    | some usage =>
      exact ⟨[HumanMessage m, AIMessage resp.content],
        by simp [logged_invoke, hg, hu]⟩

/-- Claim C8: under every operation of either invoker the conversation is
mutated append-only (the stateful call appends at the end, the stateless
call appends nothing), so the first element — the system-role message
installed at process start — is never removed or replaced. -/
theorem spec_C8 (gen : Adapter) (clock : Clock) (m sid : String)
    (w : World) :
    (∃ t, (logged_invoke gen clock m sid w).2.conversation =
      w.conversation ++ t) ∧
    (naive_invoke gen clock m sid w).2.conversation = w.conversation ∧
    (∀ m0, w.conversation.head? = some m0 →
      (logged_invoke gen clock m sid w).2.conversation.head? = some m0 ∧
      (naive_invoke gen clock m sid w).2.conversation.head? = some m0) ∧
    initWorld.conversation.head? =
      some (SystemMessage
        "You are a concise, professional, and friendly assistant.") ∧
    initWorld.conversation.head?.map Message.role = some Role.system := by
  refine ⟨logged_invoke_conv_append gen clock m sid w,
    naive_invoke_conv gen clock m sid w, ?_, rfl, rfl⟩
  intro m0 h0
  obtain ⟨t, ht⟩ := logged_invoke_conv_append gen clock m sid w
  rw [ht, naive_invoke_conv gen clock m sid w]
  cases hcv : w.conversation with
  | nil => rw [hcv] at h0; simp at h0
  | cons a l =>
    rw [hcv] at h0
    exact ⟨by simpa using h0, h0⟩

/-- Witness for C8: a concrete stateful and stateless call both keep the
installed system message as the first conversation element. -/
theorem spec_C8_witness :
    (∃ t, (logged_invoke gen0 clock0 "hi" "s" initWorld).2.conversation =
      initWorld.conversation ++ t) ∧
    (logged_invoke gen0 clock0 "hi" "s" initWorld).2.conversation.head? =
      some (SystemMessage
        "You are a concise, professional, and friendly assistant.") ∧
    (naive_invoke gen0 clock0 "hi" "s" initWorld).2.conversation.head? =
      some (SystemMessage
        "You are a concise, professional, and friendly assistant.") :=
  ⟨(spec_C8 gen0 clock0 "hi" "s" initWorld).1,
   (spec_C8 gen0 clock0 "hi" "s" initWorld).2.2.1 _ rfl⟩

/-- Claim C9: with a monotone wall clock, every latency value carried by
an emitted record is nonnegative and equals the difference between a clock
sample taken strictly after the start of that call and the start sample —
the very instant stamped as the timestamp of the call_start record of
record. -/
theorem spec_C9 (gen : Adapter) (clock : Clock) (m sid : String)
    (w : World) (hc : ∀ i j : Nat, i ≤ j → clock i ≤ clock j) :
    (∀ en ∈ (logged_invoke gen clock m sid w).2.log.drop w.log.length,
      (∀ v, latencyField en.record = some v →
        0 ≤ v ∧ ∃ k, w.tick < k ∧ v = clock k - clock w.tick) ∧
      (isStartEvt en = true →
        timestampField en.record = some (clock w.tick))) ∧
    (∀ en ∈ (naive_invoke gen clock m sid w).2.log.drop w.log.length,
      (∀ v, latencyField en.record = some v →
        0 ≤ v ∧ ∃ k, w.tick < k ∧ v = clock k - clock w.tick) ∧
      (isStartEvt en = true →
        timestampField en.record = some (clock w.tick))) := by
  have key : ∀ d : Nat, 0 < d →
      0 ≤ clock (w.tick + d) - clock w.tick ∧
      ∃ k, w.tick < k ∧
        clock (w.tick + d) - clock w.tick = clock k - clock w.tick := by
    intro d hd
    have := hc w.tick (w.tick + d) (by omega)
    exact ⟨by omega, w.tick + d, by omega, rfl⟩
  constructor
  · cases hg : gen (w.conversation ++ [HumanMessage m]) with
    | error e =>
      intro en hen
      simp only [logged_invoke, hg, List.drop_left, List.mem_cons,
        List.mem_singleton, List.not_mem_nil, or_false] at hen
      rcases hen with h | h
      · refine ⟨?_, ?_⟩
        · intro v hv
          have hx : latencyField en.record = none := by rw [h]; rfl
          rw [hx] at hv; cases hv
        · intro _
          rw [h]; rfl
      · refine ⟨?_, ?_⟩
        · intro v hv
          have hx : latencyField en.record =
              some (clock (w.tick + 1) - clock w.tick) := by rw [h]; rfl
          rw [hx] at hv
          obtain rfl := Option.some.inj hv
          exact key 1 (by omega)
        · intro hstart
          have hx : isStartEvt en = false := by rw [h]; rfl
          rw [hx] at hstart; cases hstart
    | ok resp =>
      cases hu : resp.usage_metadata with
      | some usage =>
        intro en hen
        simp only [logged_invoke, hg, hu, List.drop_left, List.mem_cons,
          List.mem_singleton, List.not_mem_nil, or_false] at hen
        rcases hen with h | h
        · refine ⟨?_, ?_⟩
          · intro v hv
            have hx : latencyField en.record = none := by rw [h]; rfl
            rw [hx] at hv; cases hv
          · intro _
            rw [h]; rfl
        · refine ⟨?_, ?_⟩
          · intro v hv
            have hx : latencyField en.record =
                some (clock (w.tick + 1) - clock w.tick) := by rw [h]; rfl
            rw [hx] at hv
            obtain rfl := Option.some.inj hv
            exact key 1 (by omega)
          · intro hstart
            have hx : isStartEvt en = false := by rw [h]; rfl
            rw [hx] at hstart; cases hstart
      | none =>
        intro en hen
        simp only [logged_invoke, hg, hu, List.drop_left, List.mem_cons,
          List.mem_singleton, List.not_mem_nil, or_false] at hen
        rcases hen with h | h
        · refine ⟨?_, ?_⟩
          · intro v hv
            have hx : latencyField en.record = none := by rw [h]; rfl
            rw [hx] at hv; cases hv
          · intro _
            rw [h]; rfl
        · refine ⟨?_, ?_⟩
          · intro v hv
            have hx : latencyField en.record =
                some (clock (w.tick + 3) - clock w.tick) := by rw [h]; rfl
            rw [hx] at hv
            obtain rfl := Option.some.inj hv
            exact key 3 (by omega)
          · intro hstart
            have hx : isStartEvt en = false := by rw [h]; rfl
            rw [hx] at hstart; cases hstart
  · cases hg : gen [statelessSystem, HumanMessage m] with
    | error e =>
      intro en hen
      simp only [naive_invoke, hg, List.drop_left, List.mem_cons,
        List.mem_singleton, List.not_mem_nil, or_false] at hen
      rcases hen with h | h
      · refine ⟨?_, ?_⟩
        · intro v hv
          have hx : latencyField en.record = none := by rw [h]; rfl
          rw [hx] at hv; cases hv
        · intro _
          rw [h]; rfl
      · refine ⟨?_, ?_⟩
        · intro v hv
          have hx : latencyField en.record =
              some (clock (w.tick + 1) - clock w.tick) := by rw [h]; rfl
          rw [hx] at hv
          obtain rfl := Option.some.inj hv
          exact key 1 (by omega)
        · intro hstart
          have hx : isStartEvt en = false := by rw [h]; rfl
          rw [hx] at hstart; cases hstart
    | ok resp =>
      cases hu : resp.usage_metadata with
      | some usage =>
        intro en hen
        simp only [naive_invoke, hg, hu, List.drop_left, List.mem_cons,
          List.mem_singleton, List.not_mem_nil, or_false] at hen
        rcases hen with h | h
        · refine ⟨?_, ?_⟩
          · intro v hv
            have hx : latencyField en.record = none := by rw [h]; rfl
            rw [hx] at hv; cases hv
          · intro _
            rw [h]; rfl
        · refine ⟨?_, ?_⟩
          · intro v hv
            have hx : latencyField en.record =
                some (clock (w.tick + 1) - clock w.tick) := by rw [h]; rfl
            rw [hx] at hv
            obtain rfl := Option.some.inj hv
            exact key 1 (by omega)
          · intro hstart
            have hx : isStartEvt en = false := by rw [h]; rfl
            rw [hx] at hstart; cases hstart
      | none =>
        intro en hen
        simp only [naive_invoke, hg, hu, List.drop_left, List.mem_cons,
          List.mem_singleton, List.not_mem_nil, or_false] at hen
        rcases hen with h | h
        · refine ⟨?_, ?_⟩
          · intro v hv
            have hx : latencyField en.record = none := by rw [h]; rfl
            rw [hx] at hv; cases hv
          · intro _
            rw [h]; rfl
        · refine ⟨?_, ?_⟩
          · intro v hv
            have hx : latencyField en.record =
                some (clock (w.tick + 3) - clock w.tick) := by rw [h]; rfl
            rw [hx] at hv
            obtain rfl := Option.some.inj hv
            exact key 3 (by omega)
          · intro hstart
            have hx : isStartEvt en = false := by rw [h]; rfl
            rw [hx] at hstart; cases hstart

/-- Witness for C9: on a failing call under the identity clock the error
error record carries latency 1, nonnegative, spanning start to completion. -/
theorem spec_C9_witness :
    0 ≤ (1 : Int) ∧
    ∃ k, initWorld.tick < k ∧ (1 : Int) = clock0 k - clock0 initWorld.tick :=
  ((spec_C9 genFail clock0 "hi" "s" initWorld
      (fun i j hij => by simp only [clock0]; exact_mod_cast hij)).1
    ⟨Level.error,
     [("event", JsonValue.str "llm_call_error"),
      ("session_id", JsonValue.str "s"),
      ("timestamp", JsonValue.num 2),
      ("latency_seconds", JsonValue.num 1),
      ("error", JsonValue.str "rate_limited")]⟩ (by decide)).1 1 (by decide)

/-- Claim C10: when the adapter succeeds but the response carries no usage
metadata, the stateful invoker has already appended both the user and the
assistant message (conversation grows by 2), yet it emits a call_error
event instead of call_success and propagates a failure to the caller. -/
theorem spec_C10 (gen : Adapter) (clock : Clock) (m sid : String)
    (w : World) (resp : LLMResponse)
    (hg : gen (w.conversation ++ [HumanMessage m]) = Except.ok resp)
    (hu : resp.usage_metadata = none) :
    (logged_invoke gen clock m sid w).1 = Except.error attrErrorMessage ∧
    (logged_invoke gen clock m sid w).2.conversation =
      w.conversation ++ [HumanMessage m, AIMessage resp.content] ∧
    ((logged_invoke gen clock m sid w).2.log.drop w.log.length).countP
      isSuccessEvt = 0 ∧
    ((logged_invoke gen clock m sid w).2.log.drop w.log.length).countP
      isErrorEvt = 1 ∧
    ((logged_invoke gen clock m sid w).2.log.drop w.log.length).map
      LogEntry.level = [Level.info, Level.error] := by
  refine ⟨?_, ?_, ?_, ?_, ?_⟩ <;>
    simp only [logged_invoke, hg, hu, List.drop_left] <;>
    first
    | rfl
    | simp

/-- Witness for C10 with the success-without-usage adapter. -/
theorem spec_C10_witness :
    (logged_invoke genNoUsage clock0 "hi" "s" initWorld).1 =
      Except.error attrErrorMessage ∧
    (logged_invoke genNoUsage clock0 "hi" "s" initWorld).2.conversation =
      initWorld.conversation ++ [HumanMessage "hi", AIMessage "R"] ∧
    ((logged_invoke genNoUsage clock0 "hi" "s" initWorld).2.log.drop
      initWorld.log.length).countP isSuccessEvt = 0 ∧
    ((logged_invoke genNoUsage clock0 "hi" "s" initWorld).2.log.drop
      initWorld.log.length).countP isErrorEvt = 1 ∧
    ((logged_invoke genNoUsage clock0 "hi" "s" initWorld).2.log.drop
      initWorld.log.length).map LogEntry.level = [Level.info, Level.error] :=
  spec_C10 genNoUsage clock0 "hi" "s" initWorld ⟨"R", none⟩ rfl rfl

end Day1
